import Mathlib

/-!
Verification of the iridium-site-survey-tool telemetry engine (v4).

JavaScript numbers are embedded as exact rationals, timestamps in
milliseconds as integers, and NaN-producing integer parses as Option
values (none = NaN).  Each definition is a shallow embedding of the
correspondingly named function of the source; deviations forced by Lean
are noted next to the definition.
-/

namespace SiteSurvey

/-- JS truncation toward zero, used by the percent remainder operator. -/
def jsTrunc (q : ℚ) : ℤ :=
  if q < 0 then ⌈q⌉ else ⌊q⌋

/-- The JS remainder operator a percent b: the result keeps the sign of the
dividend, r = a - b * trunc (a / b). -/
def jsRem (a b : ℚ) : ℚ :=
  a - b * (jsTrunc (a / b) : ℚ)

/-- JS Math.round: half-way cases round toward positive infinity. -/
def jsRound (q : ℚ) : ℤ :=
  ⌊q + 1 / 2⌋

/-- JS Math.floor on a rational. -/
def jsFloor (q : ℚ) : ℤ :=
  ⌊q⌋

/-- Whitespace characters skipped by JS parseInt before parsing. -/
def isJsSpace (c : Char) : Bool :=
  c = ' ' || c = '\t' || c = '\n' || c = '\r'

/-- Value of one digit character in the given base, if it is a digit. -/
def digitVal (base : ℕ) (c : Char) : Option ℕ :=
  let v : ℕ :=
    if '0' ≤ c ∧ c ≤ '9' then c.toNat - '0'.toNat
    else if 'a' ≤ c ∧ c ≤ 'z' then c.toNat - 'a'.toNat + 10
    else if 'A' ≤ c ∧ c ≤ 'Z' then c.toNat - 'A'.toNat + 10
    else 99
  if v < base then some v else none

/-- Longest digit prefix of a character list in the given base; none when
there is no leading digit (parseInt yields NaN in that case). -/
def parseDigitPrefix (base : ℕ) : List Char → Option ℕ
  | [] => none
  | c :: cs =>
    match digitVal base c with
    | none => none
    | some v =>
      match parseDigitPrefix base cs with
      | none => some v
      | some rest =>
        -- accumulate left to right: v is the leading digit of (v :: digits of rest)
        some (v * base ^ (numDigitsAux base cs) + rest)
where
  /-- Number of leading digits of the list in the given base. -/
  numDigitsAux (base : ℕ) : List Char → ℕ
    | [] => 0
    | c :: cs => match digitVal base c with
      | none => 0
      | some _ => numDigitsAux base cs + 1

/-- JS parseInt: skip whitespace, optional sign, then the longest digit
prefix; when detectHex is set (parseInt with no radix argument) a 0x or 0X
prefix switches to base 16.  Returns none for NaN (no digits). -/
def jsParseIntCore (detectHex : Bool) (s : String) : Option ℤ :=
  let cs := s.toList.dropWhile isJsSpace
  let (sign, cs) : ℤ × List Char :=
    match cs with
    | '-' :: rest => (-1, rest)
    | '+' :: rest => (1, rest)
    | _ => (1, cs)
  let parsed : Option ℕ :=
    match cs with
    | '0' :: 'x' :: rest => if detectHex then parseDigitPrefix 16 rest else parseDigitPrefix 10 cs
    | '0' :: 'X' :: rest => if detectHex then parseDigitPrefix 16 rest else parseDigitPrefix 10 cs
    | _ => parseDigitPrefix 10 cs
  parsed.map (fun n => sign * n)

/-- parseInt with the default radix argument (hex prefix detection). -/
def jsParseInt (s : String) : Option ℤ := jsParseIntCore true s

/-- parseInt with an explicit radix of 10 (used by the log importer). -/
def jsParseInt10 (s : String) : Option ℤ := jsParseIntCore false s

/-! ## CONFIG (config.js) -/

/-- One elevation band of CONFIG.elevationBands. -/
structure ElevationBand where
  lo : ℚ          -- field min of the source
  hi : ℚ          -- field max of the source
  horizon : Bool
deriving DecidableEq

/-- CONFIG.elevationBands: the 7 fixed elevation bands. -/
def elevationBands : List ElevationBand :=
  [⟨8, 14, true⟩, ⟨14, 20, true⟩, ⟨20, 35, false⟩, ⟨35, 50, false⟩,
   ⟨50, 65, false⟩, ⟨65, 80, false⟩, ⟨80, 90, false⟩]

/-- CONFIG.assessment.clearThreshold. -/
def clearThreshold : ℚ := 0.70

/-- CONFIG.assessment.partialThreshold (renamed: the source identifier is
not a legal Lean name). -/
def partThreshold : ℚ := 0.40

/-- CONFIG.minFunctionalElevation. -/
def minFunctionalElevation : ℚ := 8

/-- CONFIG.sessionVersion. -/
def sessionVersion : ℚ := 3

/-- getMinObservationsThreshold (coverage.js): first entry of
CONFIG.minReportsThresholds whose hours bound exceeds the survey hours;
the last entry has hours = Infinity so its bound always matches. -/
def getMinObservationsThreshold (surveyHours : ℚ) : ℕ :=
  if surveyHours < 2 then 3
  else if surveyHours < 8 then 10
  else if surveyHours < 24 then 20
  else 30

/-! ## Coordinate helpers (coordinates.js)

The trigonometric body of ecefToElevAz is an external real-analytic
computation; functions that consume its output take the pair
(elevation, azimuth) abstractly.  A result of none models NaN. -/

/-- getAzimuthIndex (coordinates.js): sector index from an azimuth in
degrees, via the JS remainder and Math.floor. -/
def getAzimuthIndex (azimuth : ℚ) : ℤ :=
  let normalized := jsRem (azimuth + 22.5) 360
  jsFloor (normalized / 45)

/-- getElevationIndex (coordinates.js): index of the elevation band
containing the elevation, with the explicit fallback that maps
elevations of at least 90 degrees to the last band; -1 when below the
minimum.  The NaN elevation (none) fails every comparison and yields -1. -/
def getElevationIndex (elevation : Option ℚ) : ℤ :=
  match elevation with
  | none => -1
  | some e =>
    match elevationBands.findIdx? (fun b => e ≥ b.lo ∧ e < b.hi) with
    | some i => (i : ℤ)
    | none => if e ≥ 90 then (elevationBands.length : ℤ) - 1 else -1

/-- isInFunctionalRange (coordinates.js); NaN (none) compares false. -/
def isInFunctionalRange (elevation : Option ℚ) : Bool :=
  match elevation with
  | none => false
  | some e => e ≥ minFunctionalElevation

/-- getCellKey (coordinates.js) reduced to grid indices: the source
returns the string az_el, or null when the elevation index is negative.
A NaN azimuth, or an azimuth index outside 0..7, produces a key that
matches no cell of the dense grid, so no valid cell results (the live
azimuths always lie in [0, 360), where the index is in range). -/
def getCellKeyIdx (azimuth : Option ℚ) (elevation : Option ℚ) :
    Option (Fin 8 × Fin 7) :=
  let elIdx := getElevationIndex elevation
  if helv : elIdx < 0 then none
  else
    match azimuth with
    | none => none
    | some a =>
      let azIdx := getAzimuthIndex a
      if haz : 0 ≤ azIdx ∧ azIdx < 8 then
        if helv2 : elIdx < 7 then
          some (⟨azIdx.toNat, by omega⟩, ⟨elIdx.toNat, by omega⟩)
        else none
      else none

/-! ## Coverage grid (state/store.js shape, session.js codec) -/

/-- A satellite ID as stored in sets and Map keys: an integer, or bottom
for the NaN produced by parseInt on a non-numeric field.  JS Set and Map
keys use SameValueZero, under which NaN equals NaN, so a finite set over
this type is exact; the linear order only fixes a canonical enumeration
order, which the spec declares not significant. -/
abbrev SatId := WithBot ℤ

/-- Conversion from a parseInt result to a stored satellite ID. -/
def toSatId : Option ℤ → SatId
  | none => ⊥
  | some v => (v : WithBot ℤ)

/-- One coverage cell: observation count plus the set of satellite IDs
seen in the cell. -/
structure Cell where
  count : ℕ
  satellites : Finset SatId
deriving DecidableEq

/-- The dense coverage grid: 8 azimuth sectors times 7 elevation bands. -/
abbrev Grid := Fin 8 → Fin 7 → Cell

/-- createEmptyCoverageGrid (state/store.js, embedded in README.md):
iterates the 8 azimuth sectors and 7 elevation bands and gives every
cell count 0 and a fresh empty satellite set, producing the dense
56-cell grid. -/
def createEmptyCoverageGrid : Grid := fun _ _ => ⟨0, ∅⟩

/-- One serialized cell: the satellite set written out as an array
(Array.from of a Set); the order of IDs is not significant. -/
structure SerCell where
  count : ℕ
  satellites : List SatId
deriving DecidableEq

/-- serializeCoverageGrid (session.js): per cell, keep the count and
turn the satellite set into an array. -/
def serializeCoverageGrid (grid : Grid) : Fin 8 → Fin 7 → SerCell :=
  fun a e => ⟨(grid a e).count, (grid a e).satellites.sort (· ≤ ·)⟩

/-- deserializeCoverageGrid (session.js) on a grid-shaped document (the
shape produced by serializeCoverageGrid: all 56 keys present, counts
numeric): start from the empty grid and replace every cell, rebuilding
each satellite set from its array.  The source guard on grid[key] always
holds for the 56 well-formed keys, and count-or-zero is the identity on
a numeric count. -/
def deserializeCoverageGrid (ser : Fin 8 → Fin 7 → SerCell) : Grid :=
  fun a e => ⟨(ser a e).count, (ser a e).satellites.toFinset⟩

/-- The grid-update step inside parseSvBeam (modem.js): when the
elevation is in functional range and getCellKey yields a cell of the
dense grid, increment that cell count and add the satellite ID to its
set; every other cell is untouched. -/
def gridUpdate (grid : Grid) (elevation azimuth : Option ℚ)
    (svId : SatId) : Grid :=
  if isInFunctionalRange elevation then
    match getCellKeyIdx azimuth elevation with
    | some k =>
      fun a e =>
        if (a, e) = k then
          ⟨(grid a e).count + 1, insert svId (grid a e).satellites⟩
        else grid a e
    | none => grid
  else grid

/-! ## Modem line parsing (modem.js) -/

/-- One stored RSSI report; rssi is none when parseInt returned NaN. -/
structure RssiReport where
  timestamp : ℤ
  rssi : Option ℤ
deriving DecidableEq

/-- parseRSSI (modem.js): parse the first value and append the report
unconditionally - there is no NaN guard in this path. -/
def parseRSSI (values : List String) (timestamp : ℤ)
    (rssiReports : List RssiReport) : List RssiReport :=
  rssiReports ++ [⟨timestamp, jsParseInt (values.getD 0 "")⟩]

/-- Observer location in degrees. -/
structure Observer where
  lat : ℚ
  lon : ℚ
deriving DecidableEq

/-- The elevation/azimuth pair delivered by ecefToElevAz; none models
NaN propagation from a NaN ECEF component. -/
abbrev ElevAzFn := Option ℤ → Option ℤ → Option ℤ → Observer → Option ℚ × Option ℚ

/-- One stored satellite/beam report (field order of the source). -/
structure SvReport where
  timestamp : ℤ
  svId : Option ℤ
  beamId : Option ℤ
  x : Option ℤ
  y : Option ℤ
  z : Option ℤ
  elevation : Option ℚ
  azimuth : Option ℚ
deriving DecidableEq

/-- The per-report record pushed onto a satellite track by parseSvBeam
(timestamp, elevation, azimuth, beamId). -/
structure TrackRep where
  timestamp : ℤ
  elevation : Option ℚ
  azimuth : Option ℚ
  beamId : SatId
deriving DecidableEq

/-- One satellite track: report list plus the set of beam IDs. -/
structure SatTrack where
  reports : List TrackRep
  beams : Finset SatId
deriving DecidableEq

/-- The satellites Map, as an insertion-ordered association list keyed
by svId (none is the NaN key; Map keys use SameValueZero, under which
NaN equals NaN). -/
abbrev SatMap := List (SatId × SatTrack)

/-- The satellite-tracking update of parseSvBeam: insert an empty track
when the svId key is absent, then push the report and add the beam. -/
def trackUpdate (sats : SatMap) (svId : SatId) (r : TrackRep) : SatMap :=
  let sats' := if sats.any (fun p => p.1 = svId) then sats
               else sats ++ [(svId, ⟨[], ∅⟩)]
  sats'.map (fun p =>
    if p.1 = svId then (p.1, ⟨p.2.reports ++ [r], insert r.beamId p.2.beams⟩)
    else p)

/-- The store slice mutated by parseSvBeam (the latestPing UI-flash
field is rendering state and is not modelled). -/
structure SvState where
  svBeamReports : List SvReport
  satellites : SatMap
  coverageGrid : Grid
deriving DecidableEq

/-- parseSvBeam (modem.js): drop payloads of fewer than 6 values, parse
the six integer fields, drop beam-landing reports (svBm different from
1), then append the report, update the coverage grid for functional
elevations, and update the satellite track. -/
def parseSvBeam (ecefToElevAz : ElevAzFn) (observer : Observer)
    (values : List String) (timestamp : ℤ) (s : SvState) : SvState :=
  if values.length < 6 then s
  else
    let svId := jsParseInt (values.getD 0 "")
    let beamId := jsParseInt (values.getD 1 "")
    let svBm := jsParseInt (values.getD 2 "")
    let x := jsParseInt (values.getD 3 "")
    let y := jsParseInt (values.getD 4 "")
    let z := jsParseInt (values.getD 5 "")
    if svBm ≠ some 1 then s
    else
      let ea := ecefToElevAz x y z observer
      let elevation := ea.1
      let azimuth := ea.2
      let report : SvReport := ⟨timestamp, svId, beamId, x, y, z, elevation, azimuth⟩
      { svBeamReports := s.svBeamReports ++ [report]
        satellites := trackUpdate s.satellites (toSatId svId) ⟨timestamp, elevation, azimuth, toSatId beamId⟩
        coverageGrid := gridUpdate s.coverageGrid elevation azimuth (toSatId svId) }

/-! ## Uptime tracker (assessment part of coverage.js) -/

/-- One service availability event. -/
structure ServiceEvent where
  timestamp : ℤ
  available : Bool
deriving DecidableEq

/-- The store slice read by calculateServiceUptime. -/
structure UptimeState where
  serviceEvents : List ServiceEvent
  startTime : Option ℤ
  loadedDuration : ℤ
  loadedUptime : ℤ
  loadedOutageCount : ℤ
deriving DecidableEq

/-- The numeric result of calculateServiceUptime. -/
structure ServiceStats where
  uptimeMs : ℤ
  totalMs : ℤ
  percentage : ℚ
  outageCount : ℤ
deriving DecidableEq

/-- The event-walk step of calculateServiceUptime: state is
(session uptime, pending online start, session outage count).  An online
event overwrites the pending start; an offline event with a pending
start accrues the interval and counts one outage. -/
def uptimeStep : ℤ × Option ℤ × ℤ → ServiceEvent → ℤ × Option ℤ × ℤ
  | (u, lastOn, c), e =>
    if e.available then (u, some e.timestamp, c)
    else
      match lastOn with
      | some t0 => (u + (e.timestamp - t0), none, c + 1)
      | none => (u, none, c)

/-- calculateServiceUptime (assessment): sort the session events by
timestamp, walk them, accrue a still-pending online interval up to now,
add the carried-over accumulators, and return null (none) only when the
total elapsed time is not positive.  The source guards the session
clock with a truthiness test (startTime ? now - startTime : 0), so an
unset startTime and a startTime of exactly 0 both contribute no session
time. -/
def calculateServiceUptime (s : UptimeState) (now : ℤ) : Option ServiceStats :=
  let sorted := s.serviceEvents.mergeSort (fun a b => a.timestamp ≤ b.timestamp)
  let walk := sorted.foldl uptimeStep (0, none, 0)
  let sessionUptimeMs :=
    match walk.2.1 with
    | some lastOn => walk.1 + (now - lastOn)
    | none => walk.1
  let currentSessionMs := match s.startTime with
    | some st => if st = 0 then 0 else now - st
    | none => 0
  let totalMs := s.loadedDuration + currentSessionMs
  let totalUptimeMs := s.loadedUptime + sessionUptimeMs
  let totalOutageCount := s.loadedOutageCount + walk.2.2
  -- the source tests totalMs <= 0 twice (once conjoined with a zero
  -- loaded duration); both branches return null, so one test suffices
  if totalMs ≤ 0 then none
  else some ⟨totalUptimeMs, totalMs, (totalUptimeMs : ℚ) / (totalMs : ℚ) * 100, totalOutageCount⟩

/-! ## Horizon classifier (coverage.js) and verdict engine (assessment) -/

/-- The four-tier per-direction classification.  The middle tier is
called partial in the source; that word is reserved in Lean. -/
inductive Classification where
  | clear
  | part
  | sparse
  | blocked
deriving DecidableEq

/-- Per-direction accumulator of analyzeHorizonVisibility. -/
structure HorizonDir where
  lowestBandCount : ℕ
  totalCount : ℕ
  hasBothBands : Bool
deriving DecidableEq

/-- Index of the lowest horizon band: first band flagged horizon. -/
def lowestHorizonBandIdx : ℕ :=
  elevationBands.findIdx (fun b => b.horizon)

/-- The per-direction band walk of analyzeHorizonVisibility: over the
band table, horizon bands meeting the threshold add to the totals (the
lowest band records its count); a horizon band below the threshold
clears hasBothBands. -/
def horizonByDir (grid : Grid) (minObsForValid : ℕ) (d : Fin 8) : HorizonDir :=
  (List.finRange 7).foldl
    (fun acc e =>
      if (elevationBands.getD e.val ⟨0, 0, false⟩).horizon = false then acc
      else
        let c := (grid d e).count
        if c ≥ minObsForValid then
          { acc with
            totalCount := acc.totalCount + c
            lowestBandCount := if e.val = lowestHorizonBandIdx then c else acc.lowestBandCount }
        else { acc with hasBothBands := false })
    ⟨0, 0, true⟩

/-- Math.max of the recorded lowest-band counts over the 8 directions. -/
def maxLowestBandCount (grid : Grid) (minObsForValid : ℕ) : ℕ :=
  Finset.univ.sup (fun d => (horizonByDir grid minObsForValid d).lowestBandCount)

/-- The per-direction classification branch of analyzeHorizonVisibility. -/
def classifyDirection (grid : Grid) (minObsForValid : ℕ) (d : Fin 8) :
    Classification :=
  let dir := horizonByDir grid minObsForValid d
  let maxC := maxLowestBandCount grid minObsForValid
  if dir.hasBothBands = false then .blocked
  else if maxC > 0 then
    let frac : ℚ := (dir.lowestBandCount : ℚ) / (maxC : ℚ)
    if frac ≥ clearThreshold then .clear
    else if frac ≥ partThreshold then .part
    else .sparse
  else .blocked

/-- Per-direction detail record of analyzeHorizonVisibility. -/
structure DirDetail where
  classification : Classification
  lowestBandCount : ℕ
  totalCount : ℕ
  frac : ℚ
deriving DecidableEq

/-- Result record of analyzeHorizonVisibility.  The count fields mirror
the dirsClear/dirsPartial/dirsSparse/dirsBlocked counters of the source
(the middle name shortened for Lean). -/
structure HorizonAnalysis where
  dirsClear : ℕ
  dirsPart : ℕ
  dirsSparse : ℕ
  dirsBlocked : ℕ
  directionDetails : Fin 8 → DirDetail
  maxLowestBandCount : ℕ

/-- analyzeHorizonVisibility (coverage.js), parameterized by the survey
hours that the source derives from the store clocks: classify the 8
directions against the duration-scaled threshold and count each tier. -/
def analyzeHorizonVisibility (grid : Grid) (surveyHours : ℚ) : HorizonAnalysis :=
  let m := getMinObservationsThreshold surveyHours
  let maxC := maxLowestBandCount grid m
  { dirsClear := ∑ d : Fin 8, if classifyDirection grid m d = .clear then 1 else 0
    dirsPart := ∑ d : Fin 8, if classifyDirection grid m d = .part then 1 else 0
    dirsSparse := ∑ d : Fin 8, if classifyDirection grid m d = .sparse then 1 else 0
    dirsBlocked := ∑ d : Fin 8, if classifyDirection grid m d = .blocked then 1 else 0
    directionDetails := fun d =>
      let dir := horizonByDir grid m d
      { classification := classifyDirection grid m d
        lowestBandCount := dir.lowestBandCount
        totalCount := dir.totalCount
        frac := if maxC > 0 then (dir.lowestBandCount : ℚ) / (maxC : ℚ) else 0 }
    maxLowestBandCount := maxC }

/-- calculateHorizonScore (assessment): weighted mean of the tier counts
(clear 1.0, partial 0.7, sparse 0.3, blocked 0), scaled to 0-100 and
rounded; 0 when no direction was classified. -/
def calculateHorizonScore (h : HorizonAnalysis) : ℤ :=
  let totalDirs := h.dirsClear + h.dirsPart + h.dirsSparse + h.dirsBlocked
  if totalDirs = 0 then 0
  else
    let score : ℚ := ((h.dirsClear : ℚ) * 1.0 + (h.dirsPart : ℚ) * 0.7
      + (h.dirsSparse : ℚ) * 0.3) / (totalDirs : ℚ)
    jsRound (score * 100)

/-- The verdict record of getVerdict; the css-class field of the source
is named cls here (class is reserved in Lean). -/
structure VerdictR where
  short : String
  cls : String
  detail : String
deriving DecidableEq

/-- getVerdict (assessment), on explicitly passed statistics (the source
computes the same arguments from the store when they are not passed):
the insufficient-data guard, then the ordered decision list. -/
def getVerdict (serviceStats : Option ServiceStats) (h : HorizonAnalysis) :
    VerdictR :=
  match serviceStats with
  | none => ⟨"--", "", "Collecting data..."⟩
  | some st =>
    if st.totalMs < 60000 then ⟨"--", "", "Collecting data..."⟩
    else
      let uptime := st.percentage
      let horizonPct := calculateHorizonScore h
      if uptime ≥ 95 ∧ h.dirsClear ≥ 7 ∧ h.dirsBlocked = 0 ∧ h.dirsSparse = 0 then
        ⟨"✓ EXCELLENT", "score-excellent", "High uptime, clear horizon"⟩
      else if uptime ≥ 90 ∧ h.dirsClear ≥ 5 ∧ h.dirsBlocked = 0 ∧ h.dirsSparse ≤ 1 then
        ⟨"✓ GOOD", "score-good", "Reliable connectivity expected"⟩
      else if uptime ≥ 80 ∧ h.dirsBlocked ≤ 1 ∧ horizonPct ≥ 50 then
        ⟨"⚠ ADEQUATE", "score-moderate", "Usable with occasional dropouts"⟩
      else if uptime ≥ 60 ∧ h.dirsBlocked ≤ 2 then
        ⟨"⚠ MARGINAL", "score-poor", "Frequent connectivity gaps likely"⟩
      else ⟨"✗ POOR", "score-fail", "Unreliable - consider different location"⟩

/-! ## Log-file import (session.js importLogFile) -/

/-- The importer pushes numeric RSSI reports and drops NaN parses
(case 0 of importLogFile) - unlike the live parseRSSI path. -/
def importRssiStep (parts : List String) (timestamp : ℤ)
    (rssiReports : List RssiReport) : List RssiReport :=
  match jsParseInt10 (parts.getD 1 "") with
  | none => rssiReports
  | some r => rssiReports ++ [⟨timestamp, some r⟩]

/-- One satellite track as built by the importer, whose report entries
are the full report records (the live modem path pushes a reduced
record; the store field is untyped in JS, so the two paths are embedded
with their own report shapes). -/
structure SatTrackI where
  reports : List SvReport
  beams : Finset SatId
deriving DecidableEq

/-- The satellites map of the import path. -/
abbrev SatMapI := List (SatId × SatTrackI)

/-- The store slice mutated by case 3 of importLogFile. -/
structure ImportState where
  svBeamReports : List SvReport
  satellites : SatMapI
  coverageGrid : Grid
deriving DecidableEq

/-- Case 3 of importLogFile (session.js): requires at least 7
comma-separated parts (indicator plus 6 payload values), parses the six
integers with radix 10, skips beam landings (svBm different from 1) and
below-horizon elevations, then appends the report, updates the satellite
map in place, and bumps the coverage cell found by the inline index
computation (findIndex over the bands, without the 90-degree fallback of
getElevationIndex; an out-of-range or NaN index reaches no cell). -/
def importCase3 (ecefToElevAz : ElevAzFn) (observer : Observer)
    (parts : List String) (timestamp : ℤ) (st : ImportState) : ImportState :=
  if parts.length ≥ 7 then
    let svId := jsParseInt10 (parts.getD 1 "")
    let beamId := jsParseInt10 (parts.getD 2 "")
    let svBm := jsParseInt10 (parts.getD 3 "")
    let x := jsParseInt10 (parts.getD 4 "")
    let y := jsParseInt10 (parts.getD 5 "")
    let z := jsParseInt10 (parts.getD 6 "")
    if svBm ≠ some 1 then st
    else
      let ea := ecefToElevAz x y z observer
      let elevation := ea.1
      let azimuth := ea.2
      -- skip below-horizon observations (NaN compares false, so passes)
      let belowHorizon := match elevation with
        | some e => decide (e < 0)
        | none => false
      if belowHorizon then st
      else
        let report : SvReport := ⟨timestamp, svId, beamId, x, y, z, elevation, azimuth⟩
        let sats := trackUpdateImport st.satellites (toSatId svId) report (toSatId beamId)
        let grid :=
          match azimuth with
          | none => st.coverageGrid     -- NaN key reaches no cell
          | some az =>
            let azIdx := jsFloor (jsRem (az + 22.5) 360 / 45)
            let elIdx : ℤ :=
              match elevation with
              | none => -1
              | some e =>
                match elevationBands.findIdx? (fun b => e ≥ b.lo ∧ e < b.hi) with
                | some i => (i : ℤ)
                | none => -1
            if h : elIdx ≥ 0 ∧ elIdx < 7 ∧ 0 ≤ azIdx ∧ azIdx < 8 then
              fun a e =>
                if (a, e) = ((⟨azIdx.toNat, by omega⟩ : Fin 8), (⟨elIdx.toNat, by omega⟩ : Fin 7)) then
                  ⟨(st.coverageGrid a e).count + 1, insert (toSatId svId) (st.coverageGrid a e).satellites⟩
                else st.coverageGrid a e
            else st.coverageGrid
        { svBeamReports := st.svBeamReports ++ [report]
          satellites := sats
          coverageGrid := grid }
  else st
where
  /-- The satellites-map update of importLogFile: create the entry when
  missing, push the full report record, add the beam ID. -/
  trackUpdateImport (sats : SatMapI) (svId : SatId) (r : SvReport) (beam : SatId) : SatMapI :=
    let sats' := if sats.any (fun p => p.1 = svId) then sats
                 else sats ++ [(svId, ⟨[], ∅⟩)]
    sats'.map (fun p =>
      if p.1 = svId then (p.1, ⟨p.2.reports ++ [r], insert beam p.2.beams⟩)
      else p)

/-! ## Session loading over raw documents (session.js loadSession)

loadSession consumes whatever JSON.parse produced, so its all-or-nothing
behaviour has to be judged over raw JSON values, not over well-typed
session records.  The store fields it writes raw JSON into are embedded
as JSON values; the two deserializer outputs keep their structured
shapes. -/

/-- A parsed JSON value.  Arrays and objects coming out of JSON.parse
are reference-distinct trees (no sharing), which the SameValueZero
comparison below relies on. -/
inductive Json where
  | null
  | jbool (b : Bool)
  | num (q : ℚ)
  | str (s : String)
  | arr (elems : List Json)
  | obj (fields : List (String × Json))

/-- Property access j.k on a non-null base: a field of an object,
undefined (none) otherwise.  Access on null throws and is handled at
each call site. -/
def jget (j : Json) (k : String) : Option Json :=
  match j with
  | .obj fields => (fields.find? (fun p => p.1 = k)).map (fun p => p.2)
  | _ => none

/-- JS truthiness of a value. -/
def jtruthy : Json → Bool
  | .null => false
  | .jbool b => b
  | .num q => decide (q ≠ 0)
  | .str s => decide (s ≠ "")
  | .arr _ => true
  | .obj _ => true

/-- JS truthiness of a possibly-undefined value. -/
def jtruthyOpt : Option Json → Bool
  | none => false
  | some v => jtruthy v

/-- The JS expression x-or-default (the logical-or default idiom). -/
def jorD (x : Option Json) (d : Json) : Json :=
  match x with
  | some v => if jtruthy v then v else d
  | none => d

/-- SameValueZero on JSON.parse output: structural on primitives;
arrays and objects are compared by reference and every occurrence in a
parse tree is a fresh reference, so they are never equal. -/
def jsSameValueZero : Json → Json → Bool
  | .null, .null => true
  | .jbool a, .jbool b => a = b
  | .num a, .num b => decide (a = b)
  | .str a, .str b => a = b
  | _, _ => false

/-- SameValueZero extended with the undefined value (none). -/
def jsSameValueZeroOpt : Option Json → Option Json → Bool
  | none, none => true
  | some a, some b => jsSameValueZero a b
  | _, _ => false

/-- The errors loadSession can surface: the explicit version check, or
a TypeError thrown by one of the deserializers. -/
inductive LoadError where
  | versionMismatch (found : Option Json)
  | typeErr

/-- Property access that throws on a null base (reading a field of null
is a TypeError in JS). -/
def jgetE (j : Json) (k : String) : Except LoadError (Option Json) :=
  match j with
  | .null => .error .typeErr
  | .obj fields => .ok ((fields.find? (fun p => p.1 = k)).map (fun p => p.2))
  | _ => .ok none

/-- Object.entries: fields of an object, index-keyed elements of an
array, index-keyed one-character strings of a string, empty otherwise.
The null case throws in JS, but both call sites guard it behind a
truthiness test, so it never reaches this function. -/
def jentries : Json → List (String × Json)
  | .obj fields => fields
  | .arr xs => xs.enum.map (fun p => (toString p.1, p.2))
  | .str s => s.toList.enum.map (fun p => (toString p.1, Json.str (String.mk [p.2])))
  | _ => []

/-- JS iteration (for..of, and the iterable argument of new Set):
arrays yield their elements, strings their characters; numbers,
booleans, plain objects and null are not iterable and throw. -/
def jiterate : Json → Except LoadError (List Json)
  | .arr xs => .ok xs
  | .str s => .ok (s.toList.map (fun c => Json.str (String.mk [c])))
  | _ => .error .typeErr

/-- new Set over an already-iterated element list: insertion-ordered
dedup under SameValueZero. -/
def jsSetOf (xs : List Json) : List Json :=
  xs.foldl (fun acc x => if acc.any (fun y => jsSameValueZero y x) then acc
                         else acc ++ [x]) []

/-- A deserialized coverage cell at the JSON level: the raw count value
(the source stores cell.count-or-zero unchecked) and the rebuilt
satellite set. -/
structure GridCellJ where
  count : Json
  satellites : List Json

/-- The JSON-level coverage grid rebuilt by deserializeCoverageGrid. -/
abbrev GridJ := Fin 8 → Fin 7 → GridCellJ

/-- createEmptyCoverageGrid (state/store.js, embedded in README.md) at
the JSON level: all 56 cells, keyed by azimuth sector and elevation
band, with count 0 and an empty satellite set. -/
def createEmptyCoverageGridJ : GridJ := fun _ _ => ⟨.num 0, []⟩

/-- The grid key string of a cell, azimuth index underscore elevation
index. -/
def cellKeyStr (a : Fin 8) (e : Fin 7) : String :=
  toString a.val ++ "_" ++ toString e.val

/-- The cell indices matching a serialized key, if the key is one of
the 56 keys of the dense grid (the grid-key guard of the source). -/
def keyToIdx (k : String) : Option (Fin 8 × Fin 7) :=
  ((List.finRange 8).product (List.finRange 7)).find?
    (fun p => cellKeyStr p.1 p.2 = k)

/-- deserializeCoverageGrid (session.js) on a raw document: walk the
entries, replace the cells whose keys belong to the dense grid, default
a falsy count to 0 and a falsy satellites field to the empty array, and
rebuild each satellite set; a truthy non-iterable satellites value (or a
null cell) throws, aborting the whole deserialization. -/
def deserializeCoverageGridJ (j : Json) : Except LoadError GridJ :=
  (jentries j).foldlM
    (fun g p =>
      match keyToIdx p.1 with
      | none => .ok g
      | some idx => do
        let cnt ← jgetE p.2 "count"
        let satsField ← jgetE p.2 "satellites"
        let sats ← jiterate (jorD satsField (.arr []))
        .ok (fun a e =>
          if (a, e) = idx then ⟨jorD cnt (.num 0), jsSetOf sats⟩ else g a e))
    createEmptyCoverageGridJ

/-- One satellites-map entry value at the JSON level: the raw reports
value and the rebuilt beam set. -/
structure SatJ where
  reports : Json
  beams : List Json

/-- The satellites Map rebuilt by deserializeSatellites: insertion
order, keyed by the raw svId value (none is the undefined key). -/
abbrev SatMapJ := List (Option Json × SatJ)

/-- Map.prototype.set: replace in place when a SameValueZero-equal key
exists, append otherwise. -/
def mapSetJ (m : SatMapJ) (k : Option Json) (v : SatJ) : SatMapJ :=
  match m with
  | [] => [(k, v)]
  | (k', v') :: rest =>
    if jsSameValueZeroOpt k' k then (k, v) :: rest
    else (k', v') :: mapSetJ rest k v

/-- deserializeSatellites (session.js) on a raw document: iterate it
(throwing when it is truthy but not iterable); each element is either an
array pair, destructured into key and data - where missing data makes
the data.reports access throw - or any other value, whose svId, reports
and beams properties are read (throwing on a null element); beams are
rebuilt as a set. -/
def deserializeSatellitesJ (j : Json) : Except LoadError SatMapJ := do
  let elems ← jiterate j
  elems.foldlM
    (fun m sat =>
      match sat with
      | .arr xs =>
        -- array pair destructuring: svId is element 0 (undefined when
        -- absent), data is element 1
        match xs.get? 1 with
        | none => .error .typeErr   -- data is undefined: data.reports throws
        | some data => do
          let repF ← jgetE data "reports"
          let beamF ← jgetE data "beams"
          let beams ← jiterate (jorD beamF (.arr []))
          .ok (mapSetJ m xs.head? ⟨jorD repF (.arr []), jsSetOf beams⟩)
      | _ => do
        let svIdF ← jgetE sat "svId"
        let repF ← jgetE sat "reports"
        let beamF ← jgetE sat "beams"
        let beams ← jiterate (jorD beamF (.arr []))
        .ok (mapSetJ m svIdF ⟨jorD repF (.arr []), jsSetOf beams⟩))
    []

/-- The default observer location CONFIG.defaultLocation as a JSON
value. -/
def defaultLocationJ : Json :=
  .obj [("lat", .num 51.4953), ("lon", .num (-3.17047))]

/-- The store slice written by loadSession.  Fields that receive raw
document values are JSON-valued; the two deserialized structures keep
their shapes. -/
structure StateJ where
  loadedDuration : Json
  loadedUptime : Json
  loadedOutageCount : Json
  observer : Json
  rssiReports : Json
  svBeamReports : Json
  serviceEvents : Json
  coverageGrid : GridJ
  satellites : SatMapJ

/-- loadSession (session.js) after JSON.parse, as a state transformer
returning the surfaced error, if any, together with the store state
when control reaches the catch block (the store.set calls already made
are not rolled back).  The version check uses strict inequality against
CONFIG.sessionVersion = 3; the seven plain store.set calls that follow
it cannot throw, and the two deserializers run after them, so a thrown
TypeError leaves those writes in place. -/
def loadSessionJ (doc : Json) (s0 : StateJ) : Option LoadError × StateJ :=
  match jgetE doc "version" with
  | .error e => (some e, s0)
  | .ok v =>
    match v with
    | some (.num q) =>
      if q = 3 then
        let s1 : StateJ :=
          { s0 with
            loadedDuration := jorD (jget doc "duration") (.num 0)
            loadedUptime := jorD (jget doc "uptime") (.num 0)
            loadedOutageCount := jorD (jget doc "outageCount") (.num 0)
            observer := jorD (jget doc "location") defaultLocationJ
            rssiReports := jorD (jget doc "rssiReports") (.arr [])
            svBeamReports := jorD (jget doc "svBeamReports") (.arr [])
            serviceEvents := .arr [] }
        match (if jtruthyOpt (jget doc "coverageGrid") then
                 (deserializeCoverageGridJ ((jget doc "coverageGrid").getD .null)).map some
               else .ok none) with
        | .error e => (some e, s1)
        | .ok og =>
          let s2 := match og with
            | some g => { s1 with coverageGrid := g }
            | none => s1
          match (if jtruthyOpt (jget doc "satellites") then
                   (deserializeSatellitesJ ((jget doc "satellites").getD .null)).map some
                 else .ok none) with
          | .error e => (some e, s2)
          | .ok om =>
            let s3 := match om with
              | some m => { s2 with satellites := m }
              | none => s2
            (none, s3)
      else (some (.versionMismatch v), s0)
    | _ => (some (.versionMismatch v), s0)

/-! ## Specification-side definitions, reachability, and fixtures -/

/-- Maximum raw lowest-horizon-band count over the 8 directions. -/
def rawMaxLowestBand (g : Grid) : ℕ :=
  Finset.univ.sup (fun d => (g d 0).count)

/-- Per-direction classification following the wording of the spec. -/
def specClassifyDirection (g : Grid) (m : ℕ) (d : Fin 8) : Classification :=
  if (g d 0).count < m ∨ (g d 1).count < m then .blocked
  else if rawMaxLowestBand g = 0 then .blocked
  else
    let frac : ℚ := ((g d 0).count : ℚ) / (rawMaxLowestBand g : ℚ)
    if frac ≥ clearThreshold then .clear
    else if frac ≥ partThreshold then .part
    else .sparse

/-- The grid states reachable by the engine operations: the initial
empty grid, the grid part of a parseSvBeam insertion, an explicit reset
(initCoverageGrid or clearSession), and loading a saved session, whose
grid is the deserialization of a serialized reachable grid. -/
inductive ReachableGrid : Grid → Prop where
  | empty : ReachableGrid createEmptyCoverageGrid
  | insert (g : Grid) (elevation azimuth : Option ℚ) (svId : SatId) :
      ReachableGrid g → ReachableGrid (gridUpdate g elevation azimuth svId)
  | reset (g : Grid) : ReachableGrid g → ReachableGrid createEmptyCoverageGrid
  | load (g : Grid) : ReachableGrid g →
      ReachableGrid (deserializeCoverageGrid (serializeCoverageGrid g))

/-- A horizon analysis with 7 clear directions, 1 partial, none sparse,
none blocked (detail fields are irrelevant to the verdict rules). -/
def horizonClear7 : HorizonAnalysis :=
  ⟨7, 1, 0, 0, fun _ => ⟨.clear, 0, 0, 0⟩, 0⟩

/-- A store state with a distinctive carried-over duration, used to
observe mutations made by failed loads. -/
def stateJ0 : StateJ :=
  ⟨.num 7, .num 9, .num 2, .null, .null, .null, .null, createEmptyCoverageGridJ, []⟩

/-- A session document that passes the version check but whose
satellites field is a truthy non-iterable value: iterating it throws a
TypeError after the accumulator writes already happened. -/
def badSatellitesDoc : Json :=
  .obj [("version", .num 3), ("satellites", .num 5)]

/-! ## Helper lemmas shared between claims -/

/-- Concrete uptime evaluation at 30 seconds elapsed (session started
at the truthy instant 1, observed at 30001), shared between the
insufficient-data counterexample and the amended statement. -/
lemma uptime_at_30s :
    calculateServiceUptime ⟨[], some 1, 0, 0, 0⟩ 30001 = some ⟨0, 30000, 0, 0⟩ := by
  simp only [calculateServiceUptime, List.mergeSort_nil, List.foldl]
  norm_num

/-- Round trip of the typed grid codec, shared between the codec claim
and the reachable-state invariant. -/
lemma deserialize_serialize_grid (g : Grid) :
    deserializeCoverageGrid (serializeCoverageGrid g) = g := by
  funext a e
  show (⟨(g a e).count, ((g a e).satellites.sort (· ≤ ·)).toFinset⟩ : Cell) = g a e
  rw [Finset.sort_toFinset]

/-! ## C4 -/

/-- C4: deserializing the result of serializing any coverage grid gives
back the same grid: every cell keeps its count, and its satellite set is
rebuilt from the written-out ID array (whose order is immaterial)
without loss. -/
theorem serialize_roundtrip_exact (g : Grid) :
    deserializeCoverageGrid (serializeCoverageGrid g) = g :=
  deserialize_serialize_grid g

/-! ## C10 -/

/-- C10 counterexample: the azimuth-index 360-degree periodicity fails
at the input -200, because the JS remainder keeps the sign of the
dividend: getAzimuthIndex (-200) is -4 while getAzimuthIndex 160 is 4. -/
theorem getAzimuthIndex_period_counterexample :
    getAzimuthIndex (-200) ≠ getAzimuthIndex ((-200) + 360) ∧
      getAzimuthIndex (-200) = -4 ∧ getAzimuthIndex ((-200) + 360) = 4 := by
  have e1 : getAzimuthIndex (-200) = -4 := by
    have h1 : ((-200 : ℚ) + 22.5) / 360 < 0 := by norm_num
    have h2 : ⌈((-200 : ℚ) + 22.5) / 360⌉ = 0 := by
      rw [Int.ceil_eq_iff]
      norm_num
    simp only [getAzimuthIndex, jsRem, jsFloor, jsTrunc]
    rw [if_pos h1, h2, Int.floor_eq_iff]
    norm_num
  have e2 : getAzimuthIndex ((-200) + 360) = 4 := by
    have h1 : ¬(((-200 : ℚ) + 360 + 22.5) / 360 < 0) := by norm_num
    have h2 : ⌊((-200 : ℚ) + 360 + 22.5) / 360⌋ = 0 := by
      rw [Int.floor_eq_iff]
      norm_num
    simp only [getAzimuthIndex, jsRem, jsFloor, jsTrunc]
    rw [if_neg h1, h2, Int.floor_eq_iff]
    norm_num
  refine ⟨?_, e1, e2⟩
  rw [e1, e2]
  decide

/-- C10 amended: for every azimuth a with a + 22.5 nonnegative (in
particular every a in [0, 360)), getAzimuthIndex a equals
getAzimuthIndex (a + 360); the identity fails for inputs below -22.5,
where the JS remainder turns negative. -/
theorem getAzimuthIndex_period (a : ℚ) (h : -22.5 ≤ a) :
    getAzimuthIndex a = getAzimuthIndex (a + 360) := by
  have h1 : ¬((a + 22.5) / 360 < 0) := by
    rw [not_lt]
    apply div_nonneg (by linarith) (by norm_num)
  have h2 : ¬((a + 360 + 22.5) / 360 < 0) := by
    rw [not_lt]
    apply div_nonneg (by linarith) (by norm_num)
  simp only [getAzimuthIndex, jsRem, jsFloor, jsTrunc, h1, h2, if_false]
  have h3 : (a + 360 + 22.5) / 360 = (a + 22.5) / 360 + 1 := by ring
  rw [h3, Int.floor_add_one]
  congr 1
  push_cast
  ring

/-- C10 witness: the amended periodicity at the concrete azimuth 0. -/
theorem getAzimuthIndex_period_witness :
    -22.5 ≤ (0 : ℚ) ∧ getAzimuthIndex 0 = getAzimuthIndex (0 + 360) :=
  ⟨by norm_num, getAzimuthIndex_period 0 (by norm_num)⟩

/-! ## C8 -/

/-- C8 counterexample: the live parser parseRSSI does not drop a
non-numeric payload; on payload abc it appends a report with a NaN
rssi value, so the stored report list changes and an event is
produced. -/
theorem parseRSSI_nonnumeric_counterexample :
    parseRSSI ["abc"] 5 [] = [⟨5, none⟩] ∧ parseRSSI ["abc"] 5 [] ≠ [] := by
  refine ⟨?_, ?_⟩ <;> decide

/-- C8 amended: the log-file import path drops a SignalStrength line
whose payload is non-numeric (the stored report list is unchanged),
while the live parseRSSI path appends a report carrying the NaN parse
result instead of dropping the line. -/
theorem rssi_nonnumeric_amended :
    (∀ (parts : List String) (t : ℤ) (rs : List RssiReport),
        jsParseInt10 (parts.getD 1 "") = none → importRssiStep parts t rs = rs) ∧
    (∀ (values : List String) (t : ℤ) (rs : List RssiReport),
        jsParseInt (values.getD 0 "") = none →
          parseRSSI values t rs = rs ++ [⟨t, none⟩]) := by
  constructor
  · intro parts t rs h
    simp only [importRssiStep, h]
  · intro values t rs h
    simp only [parseRSSI, h]

/-- C8 witness: both amended statements at the concrete payload abc. -/
theorem rssi_nonnumeric_amended_witness :
    importRssiStep ["0", "abc"] 7 [] = [] ∧
      parseRSSI ["abc"] 7 [⟨1, some 4⟩] = [⟨1, some 4⟩, ⟨7, none⟩] :=
  ⟨rssi_nonnumeric_amended.1 ["0", "abc"] 7 [] (by decide),
   rssi_nonnumeric_amended.2 ["abc"] 7 [⟨1, some 4⟩] (by decide)⟩

/-! ## C2 -/

/-- C2 counterexample: at 30 seconds of elapsed session time (session
started at 1, observed at 30001) with no carried-over duration,
calculateServiceUptime does not return the insufficient-data result; it
returns a numeric statistics record. -/
theorem uptime_thirty_seconds_counterexample :
    calculateServiceUptime ⟨[], some 1, 0, 0, 0⟩ 30001 = some ⟨0, 30000, 0, 0⟩ ∧
      calculateServiceUptime ⟨[], some 1, 0, 0, 0⟩ 30001 ≠ none :=
  ⟨uptime_at_30s, by rw [uptime_at_30s]; exact Option.some_ne_none _⟩

/-- C2 amended: calculateServiceUptime returns the non-numeric null
result exactly when the total elapsed time - the carried-over duration
plus the current session time, which is 0 whenever startTime is unset
or falsy - is not positive; the 60-second insufficient-data cutoff is
applied by getVerdict, which reports the collecting-data verdict
whenever the statistics are null or the total elapsed time is under
60000 ms - in particular at the 30-second scenario. -/
theorem insufficient_data_amended :
    (∀ (s : UptimeState) (now : ℤ),
        calculateServiceUptime s now = none ↔
          s.loadedDuration + (match s.startTime with
            | some st => if st = 0 then 0 else now - st
            | none => 0) ≤ 0) ∧
    (∀ h : HorizonAnalysis, getVerdict none h = ⟨"--", "", "Collecting data..."⟩) ∧
    (∀ (st : ServiceStats) (h : HorizonAnalysis), st.totalMs < 60000 →
        getVerdict (some st) h = ⟨"--", "", "Collecting data..."⟩) ∧
    getVerdict (calculateServiceUptime ⟨[], some 1, 0, 0, 0⟩ 30001) horizonClear7
      = ⟨"--", "", "Collecting data..."⟩ := by
  refine ⟨?_, ?_, ?_, ?_⟩
  · intro s now
    simp only [calculateServiceUptime]
    split_ifs with h
    · simpa using h
    · simpa using h
  · intro h
    rfl
  · intro st h hlt
    simp only [getVerdict]
    rw [if_pos hlt]
  · rw [uptime_at_30s]
    norm_num [getVerdict]

/-- C2 witness: the insufficient-data conjuncts at concrete inputs. -/
theorem insufficient_data_amended_witness :
    (calculateServiceUptime ⟨[], none, 0, 0, 0⟩ 500 = none ↔
      (0 : ℤ) + (match (none : Option ℤ) with
        | some st => if st = 0 then 0 else 500 - st
        | none => 0) ≤ 0) ∧
    getVerdict (some ⟨100, 30000, 100, 0⟩) horizonClear7 = ⟨"--", "", "Collecting data..."⟩ :=
  ⟨insufficient_data_amended.1 ⟨[], none, 0, 0, 0⟩ 500,
   insufficient_data_amended.2.2.1 ⟨100, 30000, 100, 0⟩ horizonClear7 (by decide)⟩

/-! ## C3 -/

/-- C3: with at least 60 seconds elapsed, the first rule of the ordered
verdict list fires on uptime at least 95, at least 7 clear directions,
no blocked and no sparse direction, giving the Excellent verdict; at the
boundary, uptime exactly 95 with clear 7, blocked 0, sparse 0 is
Excellent, while uptime 94.9 under the same horizon falls through to
the Good rule. -/
theorem verdict_excellent_rule :
    (∀ (st : ServiceStats) (h : HorizonAnalysis),
        60000 ≤ st.totalMs → 95 ≤ st.percentage → 7 ≤ h.dirsClear →
        h.dirsBlocked = 0 → h.dirsSparse = 0 →
          getVerdict (some st) h
            = ⟨"✓ EXCELLENT", "score-excellent", "High uptime, clear horizon"⟩) ∧
    getVerdict (some ⟨95000, 100000, 95, 0⟩) horizonClear7
      = ⟨"✓ EXCELLENT", "score-excellent", "High uptime, clear horizon"⟩ ∧
    getVerdict (some ⟨94900, 100000, 94.9, 0⟩) horizonClear7
      = ⟨"✓ GOOD", "score-good", "Reliable connectivity expected"⟩ ∧
    (⟨"✓ GOOD", "score-good", "Reliable connectivity expected"⟩ : VerdictR)
      ≠ ⟨"✓ EXCELLENT", "score-excellent", "High uptime, clear horizon"⟩ := by
  refine ⟨?_, by norm_num [getVerdict, horizonClear7], by norm_num [getVerdict, horizonClear7],
    by decide⟩
  intro st h h60 hu hc hb hs
  simp only [getVerdict]
  rw [if_neg (by omega), if_pos ⟨hu, hc, hb, hs⟩]

/-- C3 witness: the Excellent rule applied at a concrete statistics
record and horizon analysis. -/
theorem verdict_excellent_rule_witness :
    getVerdict (some ⟨950, 60000, 99, 0⟩) horizonClear7
      = ⟨"✓ EXCELLENT", "score-excellent", "High uptime, clear horizon"⟩ :=
  verdict_excellent_rule.1 ⟨950, 60000, 99, 0⟩ horizonClear7
    (by decide) (by decide) (by decide) (by decide) (by decide)

/-! ## C9 -/

/-- C9: a SatellitePosition payload with fewer than 6 values is dropped
by the live parser with no state change, and a line whose positionType
flag is not 1 (a beam-landing report) leaves the whole state - sky
report list, satellite tracks and coverage grid - unchanged; the same
holds for the log importer, which needs at least 7 comma-separated
parts including the indicator. -/
theorem svbeam_drop_rules :
    (∀ (f : ElevAzFn) (obs : Observer) (values : List String) (t : ℤ) (s : SvState),
        values.length < 6 → parseSvBeam f obs values t s = s) ∧
    (∀ (f : ElevAzFn) (obs : Observer) (values : List String) (t : ℤ) (s : SvState),
        jsParseInt (values.getD 2 "") ≠ some 1 → parseSvBeam f obs values t s = s) ∧
    (∀ (f : ElevAzFn) (obs : Observer) (parts : List String) (t : ℤ) (st : ImportState),
        parts.length < 7 → importCase3 f obs parts t st = st) ∧
    (∀ (f : ElevAzFn) (obs : Observer) (parts : List String) (t : ℤ) (st : ImportState),
        jsParseInt10 (parts.getD 3 "") ≠ some 1 → importCase3 f obs parts t st = st) := by
  refine ⟨?_, ?_, ?_, ?_⟩
  · intro f obs values t s h
    simp only [parseSvBeam]
    rw [if_pos h]
  · intro f obs values t s h
    simp only [parseSvBeam]
    by_cases hl : values.length < 6
    · rw [if_pos hl]
    · rw [if_neg hl, if_pos h]
  · intro f obs parts t st h
    simp only [importCase3]
    rw [if_neg (by omega)]
  · intro f obs parts t st h
    simp only [importCase3]
    by_cases hl : parts.length ≥ 7
    · rw [if_pos hl, if_pos h]
    · rw [if_neg hl]

/-- C9 witness: a short payload and a beam-landing payload (flag 0) at
concrete inputs, on both the live and the import path. -/
theorem svbeam_drop_rules_witness :
    (parseSvBeam (fun _ _ _ _ => (none, none)) ⟨0, 0⟩ ["1", "2"] 9 ⟨[], [], createEmptyCoverageGrid⟩
      = ⟨[], [], createEmptyCoverageGrid⟩) ∧
    (parseSvBeam (fun _ _ _ _ => (some 10, some 20)) ⟨0, 0⟩ ["1", "2", "0", "5", "6", "7"] 9
        ⟨[], [], createEmptyCoverageGrid⟩ = ⟨[], [], createEmptyCoverageGrid⟩) ∧
    (importCase3 (fun _ _ _ _ => (some 10, some 20)) ⟨0, 0⟩ ["3", "1", "2", "0", "5", "6", "7"] 9
        ⟨[], [], createEmptyCoverageGrid⟩ = ⟨[], [], createEmptyCoverageGrid⟩) :=
  ⟨svbeam_drop_rules.1 _ _ _ _ _ (by decide),
   svbeam_drop_rules.2.1 _ _ _ _ _ (by decide),
   svbeam_drop_rules.2.2.2 _ _ _ _ _ (by decide)⟩

/-! ## C1 -/

/-- Concrete uptime of a session started at 100, online since 100,
observed at 200. -/
lemma uptime_online_demo :
    calculateServiceUptime ⟨[⟨100, true⟩], some 100, 0, 0, 0⟩ 200
      = some ⟨100, 100, 100, 0⟩ := by
  have hm1 : ([⟨100, true⟩] : List ServiceEvent).mergeSort
      (fun a b => a.timestamp ≤ b.timestamp) = [⟨100, true⟩] :=
    List.mergeSort_of_sorted (by decide)
  simp only [calculateServiceUptime, hm1, List.foldl_cons, List.foldl_nil, uptimeStep]
  norm_num

/-- Concrete uptime of the same session with a duplicate online event
appended at 150. -/
lemma uptime_online_dup_demo :
    calculateServiceUptime ⟨[⟨100, true⟩, ⟨150, true⟩], some 100, 0, 0, 0⟩ 200
      = some ⟨50, 100, 50, 0⟩ := by
  have hm2 : ([⟨100, true⟩, ⟨150, true⟩] : List ServiceEvent).mergeSort
      (fun a b => a.timestamp ≤ b.timestamp) = [⟨100, true⟩, ⟨150, true⟩] :=
    List.mergeSort_of_sorted (by decide)
  simp only [calculateServiceUptime, hm2, List.foldl_cons, List.foldl_nil, uptimeStep]
  norm_num

/-- C1 counterexample: with a session started at 100, still online
since 100, and now at 200, appending a duplicate online event at time
150 changes the total uptime from 100 to 50: the overwritten pending
start drops the interval between the two online timestamps, so uptime
is not left unchanged. -/
theorem uptime_duplicate_online_counterexample :
    calculateServiceUptime ⟨[⟨100, true⟩], some 100, 0, 0, 0⟩ 200
      = some ⟨100, 100, 100, 0⟩ ∧
    calculateServiceUptime ⟨[⟨100, true⟩, ⟨150, true⟩], some 100, 0, 0, 0⟩ 200
      = some ⟨50, 100, 50, 0⟩ ∧
    calculateServiceUptime ⟨[⟨100, true⟩, ⟨150, true⟩], some 100, 0, 0, 0⟩ 200
      ≠ calculateServiceUptime ⟨[⟨100, true⟩], some 100, 0, 0, 0⟩ 200 := by
  refine ⟨uptime_online_demo, uptime_online_dup_demo, ?_⟩
  rw [uptime_online_demo, uptime_online_dup_demo]
  intro h
  have := (Option.some.inj h)
  have h50 : (50 : ℤ) = 100 := congrArg ServiceStats.uptimeMs this
  norm_num at h50

/-- C1 amended: computing uptime twice from an unchanged event list is
trivially deterministic; but appending a duplicate online event with a
strictly later timestamp t1, while an online start t0 is still pending,
changes the total uptime: the pending start is overwritten without
double counting, so the reported uptime decreases by exactly t1 - t0
(total elapsed time and outage count are unchanged). -/
theorem uptime_duplicate_online_amended :
    (∀ (s : UptimeState) (now : ℤ),
        calculateServiceUptime s now = calculateServiceUptime s now) ∧
    (∀ (s : UptimeState) (now t0 t1 : ℤ),
        s.serviceEvents.Pairwise (fun a b => a.timestamp ≤ b.timestamp) →
        (∀ ev ∈ s.serviceEvents, ev.timestamp ≤ t1) →
        (s.serviceEvents.foldl uptimeStep (0, none, 0)).2.1 = some t0 →
        ∀ st st' : ServiceStats,
          calculateServiceUptime s now = some st →
          calculateServiceUptime
            { s with serviceEvents := s.serviceEvents ++ [⟨t1, true⟩] } now = some st' →
          st'.uptimeMs = st.uptimeMs - (t1 - t0) ∧ st'.totalMs = st.totalMs ∧
            st'.outageCount = st.outageCount) := by
  refine ⟨fun s now => rfl, ?_⟩
  intro s now t0 t1 hsort hle hpend st st' h1 h2
  have hm1 : s.serviceEvents.mergeSort (fun a b => a.timestamp ≤ b.timestamp)
      = s.serviceEvents :=
    List.mergeSort_of_sorted (hsort.imp (fun h => by simpa using h))
  have hsort2 : (s.serviceEvents ++ [(⟨t1, true⟩ : ServiceEvent)]).Pairwise
      (fun a b : ServiceEvent => a.timestamp ≤ b.timestamp) := by
    rw [List.pairwise_append]
    refine ⟨hsort, List.pairwise_singleton _ _, ?_⟩
    intro a ha b hb
    rw [List.mem_singleton] at hb
    subst hb
    exact hle a ha
  have hm2 : (s.serviceEvents ++ [(⟨t1, true⟩ : ServiceEvent)]).mergeSort
      (fun a b => a.timestamp ≤ b.timestamp)
        = s.serviceEvents ++ [(⟨t1, true⟩ : ServiceEvent)] :=
    List.mergeSort_of_sorted (hsort2.imp (fun h => by simpa using h))
  have hstep : ∀ x : ℤ × Option ℤ × ℤ,
      uptimeStep x ⟨t1, true⟩ = (x.1, some t1, x.2.2) := fun x => rfl
  simp only [calculateServiceUptime, hm1, hm2, List.foldl_append, List.foldl_cons,
    List.foldl_nil, hstep, hpend] at h1 h2
  split_ifs at h1 h2 with htot
  have e1 := Option.some.inj h1
  have e2 := Option.some.inj h2
  subst e1
  subst e2
  refine ⟨?_, rfl, rfl⟩
  dsimp only
  ring

/-- C1 witness: the amended uptime-shift equation at a concrete
still-online session. -/
theorem uptime_duplicate_online_amended_witness :
    (⟨100, 100, 100, 0⟩ : ServiceStats).uptimeMs
        = (⟨100, 100, 100, 0⟩ : ServiceStats).uptimeMs ∧
    ((⟨50, 100, 50, 0⟩ : ServiceStats).uptimeMs
        = (⟨100, 100, 100, 0⟩ : ServiceStats).uptimeMs - (150 - 100) ∧
      (⟨50, 100, 50, 0⟩ : ServiceStats).totalMs
        = (⟨100, 100, 100, 0⟩ : ServiceStats).totalMs ∧
      (⟨50, 100, 50, 0⟩ : ServiceStats).outageCount
        = (⟨100, 100, 100, 0⟩ : ServiceStats).outageCount) := by
  refine ⟨rfl, ?_⟩
  refine uptime_duplicate_online_amended.2 ⟨[⟨100, true⟩], some 100, 0, 0, 0⟩ 200 100 150
    (by decide) (by decide) ?_ ⟨100, 100, 100, 0⟩ ⟨50, 100, 50, 0⟩ ?_ ?_
  · decide
  · exact uptime_online_demo
  · exact uptime_online_dup_demo

/-! ## C5 -/

/-- C5 counterexample: loading badSatellitesDoc fails (an error is
surfaced), yet the state after the failed load differs from the state
before it - the carried-over duration was already overwritten with the
default 0 - so loadSession is not all-or-nothing on every failing
document. -/
theorem loadSession_partial_mutation_counterexample :
    (loadSessionJ badSatellitesDoc stateJ0).1 ≠ none ∧
    (loadSessionJ badSatellitesDoc stateJ0).2.loadedDuration = .num 0 ∧
    stateJ0.loadedDuration = .num 7 ∧
    (loadSessionJ badSatellitesDoc stateJ0).2 ≠ stateJ0 := by
  refine ⟨?_, rfl, rfl, ?_⟩
  · intro h
    have : (some LoadError.typeErr : Option LoadError) = none := h
    simp at this
  · intro h
    have h2 := congrArg StateJ.loadedDuration h
    have h3 : (Json.num 0) = (Json.num 7) := h2
    have h4 : (0 : ℚ) = 7 := Json.num.inj h3
    norm_num at h4

/-- C5 amended: a version mismatch (or a document on which reading the
version field itself throws) is rejected before any store write: an
error is surfaced and the state is exactly the state before the load.
The all-or-nothing property does not extend to every failing document:
a version-correct document can still fail mid-load, after the
accumulator and report-list writes, as the counterexample shows. -/
theorem loadSession_version_mismatch (doc : Json) (s : StateJ)
    (h : ∀ q : ℚ, jgetE doc "version" = .ok (some (.num q)) → q ≠ 3) :
    (loadSessionJ doc s).2 = s ∧ (loadSessionJ doc s).1 ≠ none := by
  unfold loadSessionJ
  cases e : jgetE doc "version" with
  | error err => exact ⟨rfl, by simp⟩
  | ok v =>
    match v with
    | none => exact ⟨rfl, by simp⟩
    | some .null => exact ⟨rfl, by simp⟩
    | some (.jbool b) => exact ⟨rfl, by simp⟩
    | some (.num q) =>
      dsimp only
      rw [if_neg (h q e)]
      exact ⟨rfl, by simp⟩
    | some (.str v) => exact ⟨rfl, by simp⟩
    | some (.arr xs) => exact ⟨rfl, by simp⟩
    | some (.obj fs) => exact ⟨rfl, by simp⟩

/-- C5 witness: the version-mismatch rejection at a concrete version-2
document and concrete state. -/
theorem loadSession_version_mismatch_witness :
    (loadSessionJ (.obj [("version", .num 2)]) stateJ0).2 = stateJ0 ∧
      (loadSessionJ (.obj [("version", .num 2)]) stateJ0).1 ≠ none :=
  loadSession_version_mismatch (.obj [("version", .num 2)]) stateJ0
    (by
      intro q hq
      have h0 : jgetE (.obj [("version", Json.num 2)]) "version"
          = Except.ok (some (Json.num 2)) := rfl
      rw [h0] at hq
      have h2 := Json.num.inj (Option.some.inj (Except.ok.inj hq))
      rw [← h2]
      norm_num)

/-! ## C6 -/

/-- Closed form of the per-direction band walk: only the two horizon
bands (indices 0 and 1) contribute, the lowest band records its count
when it meets the threshold, and hasBothBands survives exactly when
both horizon bands meet it. -/
lemma horizonByDir_eq (g : Grid) (m : ℕ) (d : Fin 8) :
    horizonByDir g m d =
      ⟨if (g d 0).count ≥ m then (g d 0).count else 0,
       (if (g d 0).count ≥ m then (g d 0).count else 0)
         + (if (g d 1).count ≥ m then (g d 1).count else 0),
       decide ((g d 0).count ≥ m) && decide ((g d 1).count ≥ m)⟩ := by
  have h7 : (List.finRange 7) = [⟨0, by omega⟩, ⟨1, by omega⟩, ⟨2, by omega⟩,
      ⟨3, by omega⟩, ⟨4, by omega⟩, ⟨5, by omega⟩, ⟨6, by omega⟩] := by decide
  rw [horizonByDir, h7]
  simp only [List.foldl_cons, List.foldl_nil, elevationBands, lowestHorizonBandIdx]
  norm_num [List.getD, List.findIdx, List.findIdx.go]
  by_cases h0 : (g d 0).count ≥ m <;> by_cases h1 : (g d 1).count ≥ m <;>
    simp [h0, h1]

lemma max_eq_raw (g : Grid) (m : ℕ) (d0 : Fin 8) (h : (g d0 0).count ≥ m) :
    maxLowestBandCount g m = rawMaxLowestBand g := by
  apply le_antisymm
  · apply Finset.sup_le
    intro d _
    rw [horizonByDir_eq]
    dsimp only
    split_ifs with hd
    · exact Finset.le_sup (f := fun d => (g d 0).count) (Finset.mem_univ d)
    · exact Nat.zero_le _
  · apply Finset.sup_le
    intro d _
    by_cases hd : (g d 0).count ≥ m
    · calc (g d 0).count = (horizonByDir g m d).lowestBandCount := by
            rw [horizonByDir_eq]; simp [hd]
        _ ≤ maxLowestBandCount g m :=
            Finset.le_sup (f := fun d => (horizonByDir g m d).lowestBandCount)
              (Finset.mem_univ d)
    · have h1 : (g d 0).count ≤ (g d0 0).count := by omega
      calc (g d 0).count ≤ (g d0 0).count := h1
        _ = (horizonByDir g m d0).lowestBandCount := by
            rw [horizonByDir_eq]; simp [h]
        _ ≤ maxLowestBandCount g m :=
            Finset.le_sup (f := fun d => (horizonByDir g m d).lowestBandCount)
              (Finset.mem_univ d0)

lemma classify_eq_spec (g : Grid) (m : ℕ) (d : Fin 8) :
    classifyDirection g m d = specClassifyDirection g m d := by
  unfold classifyDirection specClassifyDirection
  rw [horizonByDir_eq]
  dsimp only
  by_cases h0 : (g d 0).count ≥ m
  · by_cases h1 : (g d 1).count ≥ m
    · have hmax := max_eq_raw g m d h0
      rw [hmax]
      have hcond : ¬ ((g d 0).count < m ∨ (g d 1).count < m) := by omega
      rw [if_neg (by simp [h0, h1] : ¬ ((decide ((g d 0).count ≥ m) && decide ((g d 1).count ≥ m)) = false)), if_neg hcond]
      by_cases hz : rawMaxLowestBand g = 0
      · simp [hz, h0]
      · have hpos : rawMaxLowestBand g > 0 := Nat.pos_of_ne_zero hz
        simp [hz, hpos, h0]
    · have : ((decide ((g d 0).count ≥ m) && decide ((g d 1).count ≥ m)) = false) := by simp [h1]
      rw [if_pos this, if_pos (by omega : (g d 0).count < m ∨ (g d 1).count < m)]
  · have : ((decide ((g d 0).count ≥ m) && decide ((g d 1).count ≥ m)) = false) := by simp [h0]
    rw [if_pos this, if_pos (by omega : (g d 0).count < m ∨ (g d 1).count < m)]

lemma classification_partition (g : Grid) (m : ℕ) :
    (∑ d : Fin 8, if classifyDirection g m d = Classification.clear then 1 else 0) +
    (∑ d : Fin 8, if classifyDirection g m d = Classification.part then 1 else 0) +
    (∑ d : Fin 8, if classifyDirection g m d = Classification.sparse then 1 else 0) +
    (∑ d : Fin 8, if classifyDirection g m d = Classification.blocked then 1 else 0) = 8 := by
  rw [← Finset.sum_add_distrib, ← Finset.sum_add_distrib, ← Finset.sum_add_distrib]
  have hone : ∀ d : Fin 8,
      ((if classifyDirection g m d = Classification.clear then 1 else 0) +
       (if classifyDirection g m d = Classification.part then 1 else 0) +
       (if classifyDirection g m d = Classification.sparse then 1 else 0) +
       (if classifyDirection g m d = Classification.blocked then 1 else 0)) = 1 := by
    intro d
    cases hc : classifyDirection g m d <;> simp [hc]
  rw [Finset.sum_congr rfl (fun d _ => hone d)]
  simp

lemma score_formula (g : Grid) (hrs : ℚ) :
    calculateHorizonScore (analyzeHorizonVisibility g hrs)
      = jsRound ((((analyzeHorizonVisibility g hrs).dirsClear : ℚ) * 1.0
          + ((analyzeHorizonVisibility g hrs).dirsPart : ℚ) * 0.7
          + ((analyzeHorizonVisibility g hrs).dirsSparse : ℚ) * 0.3) / 8 * 100) := by
  set m := getMinObservationsThreshold hrs with hm
  have hpart := classification_partition g m
  simp only [calculateHorizonScore, analyzeHorizonVisibility]
  rw [← hm]
  rw [if_neg (by omega)]
  congr 2
  have h8 : (((∑ d : Fin 8, if classifyDirection g m d = Classification.clear then 1 else 0) +
      (∑ d : Fin 8, if classifyDirection g m d = Classification.part then 1 else 0) +
      (∑ d : Fin 8, if classifyDirection g m d = Classification.sparse then 1 else 0) +
      (∑ d : Fin 8, if classifyDirection g m d = Classification.blocked then 1 else 0) : ℕ) : ℚ) = 8 := by
    rw [hpart]; norm_num
  rw [h8]

/-- C6: the per-direction classification computed by
analyzeHorizonVisibility coincides, for every grid and survey duration,
with the classification as the spec words it (blocked when either
horizon band misses the duration-scaled threshold, blocked when the
maximum lowest-band count over the 8 directions is zero, otherwise
clear, partial or sparse by the ratio to that maximum at 0.70 / 0.40),
and the weighted horizon score is the rounded weighted mean
(clear 1.0, partial 0.7, sparse 0.3) over the 8 directions. -/
theorem horizon_classifier_matches_spec :
    (∀ (g : Grid) (hrs : ℚ) (d : Fin 8),
        ((analyzeHorizonVisibility g hrs).directionDetails d).classification
          = specClassifyDirection g (getMinObservationsThreshold hrs) d) ∧
    (∀ (g : Grid) (hrs : ℚ),
        calculateHorizonScore (analyzeHorizonVisibility g hrs)
          = jsRound ((((analyzeHorizonVisibility g hrs).dirsClear : ℚ) * 1.0
              + ((analyzeHorizonVisibility g hrs).dirsPart : ℚ) * 0.7
              + ((analyzeHorizonVisibility g hrs).dirsSparse : ℚ) * 0.3) / 8 * 100)) := by
  refine ⟨?_, score_formula⟩
  intro g hrs d
  simp only [analyzeHorizonVisibility]
  exact classify_eq_spec g (getMinObservationsThreshold hrs) d

/-! ## C7 -/

/-- The functional-range test at the concrete elevation 10. -/
lemma isInFunctionalRange_demo : isInFunctionalRange (some 10) = true := by
  norm_num [isInFunctionalRange, minFunctionalElevation]

/-- The azimuth index of the due-north azimuth 0. -/
lemma getAzimuthIndex_zero : getAzimuthIndex 0 = 0 := by
  have h1 : ¬(((0 : ℚ) + 22.5) / 360 < 0) := by norm_num
  have h2 : ⌊((0 : ℚ) + 22.5) / 360⌋ = 0 := by
    rw [Int.floor_eq_iff]
    norm_num
  simp only [getAzimuthIndex, jsRem, jsFloor, jsTrunc]
  rw [if_neg h1, h2, Int.floor_eq_iff]
  norm_num

/-- The elevation band of the concrete elevation 10 is the lowest
horizon band. -/
lemma getElevationIndex_demo : getElevationIndex (some 10) = 0 := by
  simp only [getElevationIndex, elevationBands]
  rw [List.findIdx?_cons]
  norm_num

/-- The cell key of azimuth 0, elevation 10: north, lowest band. -/
lemma getCellKeyIdx_demo :
    getCellKeyIdx (some 0) (some 10) = some (0, 0) := by
  simp only [getCellKeyIdx, getElevationIndex_demo, getAzimuthIndex_zero]
  norm_num

/-- C7: the dense grid has exactly 56 cells, all empty initially; an
accepted insertion (functional elevation, valid cell key) increments
exactly that observation cell count by one and inserts the reporting
satellite ID into its set, leaving all other cells untouched; a second
insertion of the same ID never grows any satellite set; in every grid
state reachable by the engine operations each cell satisfies
|satellite set| ≤ count; and no cell count decreases under an insertion
or under a load of a saved grid (only an explicit reset clears it). -/
theorem grid_insertion_invariants :
    (Fintype.card (Fin 8 × Fin 7) = 56 ∧
      ∀ (a : Fin 8) (e : Fin 7), createEmptyCoverageGrid a e = ⟨0, ∅⟩) ∧
    (∀ (g : Grid) (el az : Option ℚ) (id : SatId) (k : Fin 8 × Fin 7),
        isInFunctionalRange el = true → getCellKeyIdx az el = some k →
          (gridUpdate g el az id k.1 k.2
              = ⟨(g k.1 k.2).count + 1, insert id (g k.1 k.2).satellites⟩) ∧
          (∀ (a : Fin 8) (e : Fin 7), (a, e) ≠ k → gridUpdate g el az id a e = g a e)) ∧
    (∀ (g : Grid) (el az : Option ℚ) (id : SatId) (a : Fin 8) (e : Fin 7),
        (gridUpdate (gridUpdate g el az id) el az id a e).satellites
          = (gridUpdate g el az id a e).satellites) ∧
    (∀ g : Grid, ReachableGrid g →
        ∀ (a : Fin 8) (e : Fin 7), (g a e).satellites.card ≤ (g a e).count) ∧
    (∀ (g : Grid) (el az : Option ℚ) (id : SatId) (a : Fin 8) (e : Fin 7),
        (g a e).count ≤ (gridUpdate g el az id a e).count) ∧
    (∀ (g : Grid) (a : Fin 8) (e : Fin 7),
        (deserializeCoverageGrid (serializeCoverageGrid g) a e).count = (g a e).count) := by
  refine ⟨⟨by decide, fun a e => rfl⟩, ?_, ?_, ?_, ?_, ?_⟩
  · intro g el az id k h1 h2
    constructor
    · simp only [gridUpdate, h1, if_true, h2, Prod.mk.eta, if_pos]
    · intro a e hk
      simp only [gridUpdate, h1, if_true, h2]
      rw [if_neg hk]
  · intro g el az id a e
    by_cases h1 : isInFunctionalRange el = true
    · cases h2 : getCellKeyIdx az el with
      | none => simp [gridUpdate, h1, h2]
      | some k =>
        simp only [gridUpdate, h1, if_true, h2]
        by_cases hk : (a, e) = k
        · simp [hk]
        · simp [hk]
    · simp [gridUpdate, h1]
  · intro g hg
    induction hg with
    | empty => intro a e; simp [createEmptyCoverageGrid]
    | insert g el az id hg ih =>
      intro a e
      by_cases h1 : isInFunctionalRange el = true
      · cases h2 : getCellKeyIdx az el with
        | none => simpa [gridUpdate, h1, h2] using ih a e
        | some k =>
          simp only [gridUpdate, h1, if_true, h2]
          by_cases hk : (a, e) = k
          · rw [if_pos hk]
            dsimp only
            calc (insert id (g a e).satellites).card
                ≤ (g a e).satellites.card + 1 := Finset.card_insert_le _ _
              _ ≤ (g a e).count + 1 := by have := ih a e; omega
          · rw [if_neg hk]
            exact ih a e
      · simpa [gridUpdate, h1] using ih a e
    | reset g hg ih => intro a e; simp [createEmptyCoverageGrid]
    | load g hg ih =>
      intro a e
      rw [deserialize_serialize_grid]
      exact ih a e
  · intro g el az id a e
    by_cases h1 : isInFunctionalRange el = true
    · cases h2 : getCellKeyIdx az el with
      | none => simp [gridUpdate, h1, h2]
      | some k =>
        simp only [gridUpdate, h1, if_true, h2]
        by_cases hk : (a, e) = k
        · rw [if_pos hk]
          dsimp only
          omega
        · rw [if_neg hk]
    · simp [gridUpdate, h1]
  · intro g a e
    rw [deserialize_serialize_grid]

/-- C7 witness: an accepted concrete insertion into the empty grid at
azimuth 0 and elevation 10, and the invariant at the reachable empty
grid. -/
theorem grid_insertion_invariants_witness :
    (gridUpdate createEmptyCoverageGrid (some 10) (some 0) (toSatId (some 5)) 0 0
        = ⟨(createEmptyCoverageGrid 0 0).count + 1,
           insert (toSatId (some 5)) (createEmptyCoverageGrid 0 0).satellites⟩) ∧
    (∀ (a : Fin 8) (e : Fin 7),
        (createEmptyCoverageGrid a e).satellites.card ≤ (createEmptyCoverageGrid a e).count) :=
  ⟨(grid_insertion_invariants.2.1 createEmptyCoverageGrid (some 10) (some 0)
      (toSatId (some 5)) (0, 0) isInFunctionalRange_demo getCellKeyIdx_demo).1,
   grid_insertion_invariants.2.2.2.1 createEmptyCoverageGrid ReachableGrid.empty⟩

end SiteSurvey
